import Mathlib

/-!
Verification development for the dogtrails trail-search client
(`src/public/app.js`).  The JavaScript is shallowly embedded: the
`FormData` entry sequence and the `URLSearchParams` accumulator are both
modelled as ordered association lists `List (String × String)`, DOM/number
coercions are made explicit, and the fetch orchestration is modelled as a
function of the HTTP response it receives.
-/

namespace Dogtrails

/-- Semantics of `URLSearchParams.set key value`: if an entry with `key` exists, update
the first such entry in place and delete the remaining ones; otherwise
append `(key, value)` at the end. -/
def setParam : List (String × String) → String → String → List (String × String)
  | [], key, value => [(key, value)]
  | (k, v) :: rest, key, value =>
    if k = key then
      (key, value) :: rest.filter (fun p => p.1 ≠ key)
    else
      (k, v) :: setParam rest key value

/-- A region bounding box.  The source stores the bounds as JavaScript
numbers; `URLSearchParams.set` coerces them to strings, so the embedding
records the exact string each number literal produces (e.g. the literal
`-43.60` prints as `"-43.6"`). -/
structure Bbox where
  min_lat : String
  min_lon : String
  max_lat : String
  max_lon : String
deriving DecidableEq, Repr

/-- The static `regionBboxes` table of `src/public/app.js`, an object
literal used as a read-only map from region name to bounding box. -/
def regionBboxes (region : String) : Option Bbox :=
  if region = "wellington" then
    some { min_lat := "-41.35", min_lon := "174.72", max_lat := "-41.24", max_lon := "174.82" }
  else if region = "auckland" then
    some { min_lat := "-36.93", min_lon := "174.63", max_lat := "-36.77", max_lon := "174.84" }
  else if region = "queenstown" then
    some { min_lat := "-45.08", min_lon := "168.56", max_lat := "-44.95", max_lon := "168.79" }
  else if region = "christchurch" then
    some { min_lat := "-43.6", min_lon := "172.5", max_lat := "-43.45", max_lon := "172.77" }
  else
    none

/-- The string-keyed members a JavaScript object literal inherits from
`Object.prototype`; each is a function or object, hence truthy under the
source guard `regionBboxes[region]`. -/
def objectProtoMembers : List String :=
  ["constructor", "hasOwnProperty", "isPrototypeOf", "propertyIsEnumerable",
   "toLocaleString", "toString", "valueOf", "__defineGetter__",
   "__defineSetter__", "__lookupGetter__", "__lookupSetter__", "__proto__"]

/-- Result of the JavaScript property access `regionBboxes[region]`,
prototype chain included: an own key of the object literal yields its
bounding box; an inherited `Object.prototype` member yields a truthy
object carrying no `min_lat`/`min_lon`/`max_lat`/`max_lon` properties, so
each of the four subsequent `params.set` calls coerces `undefined` to the
string `"undefined"`; every other name yields `undefined`, which is falsy
in the guard. -/
def regionBboxesGet (region : String) : Option Bbox :=
  match regionBboxes region with
  | some bbox => some bbox
  | none =>
    if region ∈ objectProtoMembers then
      some { min_lat := "undefined", min_lon := "undefined",
             max_lat := "undefined", max_lon := "undefined" }
    else
      none

/-- The four `params.set` calls performed when a recognized region is
selected, in source order. -/
def setBboxParams (params : List (String × String)) (bbox : Bbox) : List (String × String) :=
  setParam (setParam (setParam (setParam params "min_lat" bbox.min_lat)
    "min_lon" bbox.min_lon) "max_lat" bbox.max_lat) "max_lon" bbox.max_lon

/-- The `for (const [key, value] of data.entries())` loop of `buildQuery`:
skip the `region` key, skip falsy (empty) values, otherwise
`params.set(key, value)`. -/
def processEntries : List (String × String) → List (String × String) → List (String × String)
  | [], params => params
  | (key, value) :: rest, params =>
    if key = "region" then
      processEntries rest params
    else if value = "" then
      processEntries rest params
    else
      processEntries rest (setParam params key value)

/-- State of the `params` accumulator after the region block of
`buildQuery`: `data.get "region"` is the first entry named `region`
(`List.lookup`); the guard `region && regionBboxes[region]` requires a
present, non-empty value whose property lookup (prototype chain included,
`regionBboxesGet`) is truthy, in which case the four bounds are set on
the fresh accumulator. -/
def initialParams (data : List (String × String)) : List (String × String) :=
  match data.lookup "region" with
  | none => []
  | some region =>
    if region = "" then []
    else
      match regionBboxesGet region with
      | none => []
      | some bbox => setBboxParams [] bbox

/-- Body of `buildQuery` up to serialization: the final entry list of the
`URLSearchParams` accumulator (region block, then the entry loop). -/
def buildQueryParams (data : List (String × String)) : List (String × String) :=
  processEntries data (initialParams data)

/-- One hexadecimal digit, upper case, as used by percent-encoding. -/
def hexDigit (n : Nat) : Char :=
  if n < 10 then Char.ofNat (48 + n) else Char.ofNat (55 + n)

/-- The UTF-8 bytes (as `Nat` values) of one code point. -/
def utf8Bytes (c : Char) : List Nat :=
  let n := c.toNat
  if n < 128 then [n]
  else if n < 2048 then [192 + n / 64, 128 + n % 64]
  else if n < 65536 then [224 + n / 4096, 128 + (n / 64) % 64, 128 + n % 64]
  else [240 + n / 262144, 128 + (n / 4096) % 64, 128 + (n / 64) % 64, 128 + n % 64]

/-- The `application/x-www-form-urlencoded` serialization of one byte:
alphanumerics and `*`, `-`, `.`, `_` are kept, space becomes `+`, every
other byte becomes `%XX`. -/
def encodeByte (n : Nat) : String :=
  if 48 ≤ n ∧ n ≤ 57 then String.singleton (Char.ofNat n)
  else if 65 ≤ n ∧ n ≤ 90 then String.singleton (Char.ofNat n)
  else if 97 ≤ n ∧ n ≤ 122 then String.singleton (Char.ofNat n)
  else if n = 42 ∨ n = 45 ∨ n = 46 ∨ n = 95 then String.singleton (Char.ofNat n)
  else if n = 32 then "+"
  else "%" ++ String.singleton (hexDigit (n / 16)) ++ String.singleton (hexDigit (n % 16))

/-- Percent-encode a string over its UTF-8 bytes, as the
`URLSearchParams` serializer does. -/
def urlencode (s : String) : String :=
  String.join (s.data.map (fun c => String.join ((utf8Bytes c).map encodeByte)))

/-- Semantics of `params.toString()`: serialize the entry list as
`k1=v1&k2=v2&...` with percent-encoded keys and values. -/
def paramsToString (params : List (String × String)) : String :=
  String.intercalate "&" (params.map (fun p => urlencode p.1 ++ "=" ++ urlencode p.2))

/-- The function `buildQuery` of `src/public/app.js`, as a function of the form data. -/
def buildQuery (data : List (String × String)) : String :=
  paramsToString (buildQueryParams data)

/-- The function `formatLabel` of `src/public/app.js`:
`value.replaceAll("_", " ")`.  With a one-character pattern and
replacement, `replaceAll` is exactly a character map over the string. -/
def formatLabel (value : String) : String :=
  String.mk (value.data.map (fun c => if c = '_' then ' ' else c))

/-- A trail record received from `/api/trails`.  `distance_km` is a
JavaScript number, modelled as a rational; `elevation_m` is an integer;
`dog_notes` may be absent (`null`/`undefined`), hence `Option`. -/
structure Trail where
  name : String
  location : String
  distance_km : ℚ
  elevation_m : ℤ
  difficulty : String
  provider : String
  dog_policy : String
  dog_notes : Option String
  surface : String
  map_url : String
deriving DecidableEq, Repr

/-- Semantics of `Number.prototype.toFixed(1)` for a non-negative value: the nearest
multiple of one tenth, ties resolved to the larger candidate, printed with
exactly one digit after the point. -/
def toFixed1Nonneg (q : ℚ) : String :=
  let n : ℕ := (⌊q * 10 + 1 / 2⌋).toNat
  toString (n / 10) ++ "." ++ toString (n % 10)

/-- Semantics of `Number.prototype.toFixed(1)` on any value: a negative value is formatted as the
sign followed by the formatting of its negation. -/
def toFixed1 (q : ℚ) : String :=
  if q < 0 then "-" ++ toFixed1Nonneg (-q) else toFixed1Nonneg q

/-- The `<span class="tag">...</span>` fragment for the trail location. -/
def locationTag (trail : Trail) : String :=
  "<span class=\"tag\">" ++ trail.location ++ "</span>"

/-- The tag fragment for the distance: `toFixed(1)` plus the unit. -/
def distanceTag (trail : Trail) : String :=
  "<span class=\"tag\">" ++ toFixed1 trail.distance_km ++ " km</span>"

/-- The tag fragment for the elevation gain. -/
def elevationTag (trail : Trail) : String :=
  "<span class=\"tag\">" ++ toString trail.elevation_m ++ " m gain</span>"

/-- The tag fragment for the difficulty label. -/
def difficultyTag (trail : Trail) : String :=
  "<span class=\"tag\">" ++ formatLabel trail.difficulty ++ "</span>"

/-- The tag fragment for the provider name. -/
def providerTag (trail : Trail) : String :=
  "<span class=\"tag\">" ++ trail.provider ++ "</span>"

/-- The tag fragment for the dog policy label. -/
def dogPolicyTag (trail : Trail) : String :=
  "<span class=\"tag\">Dog policy: " ++ formatLabel trail.dog_policy ++ "</span>"

/-- The tag fragment for the surface type. -/
def surfaceTag (trail : Trail) : String :=
  "<span class=\"tag\">Surface: " ++ trail.surface ++ "</span>"

/-- The conditional warning block of the card template:
`trail.dog_policy !== "allowed" ? <div class="warning">dog_notes ?? fallback</div> : ""`. -/
def warningBlock (trail : Trail) : String :=
  if trail.dog_policy ≠ "allowed" then
    "<div class=\"warning\">" ++ trail.dog_notes.getD "Dog access has restrictions." ++ "</div>"
  else
    ""

/-- The full card template of `renderTrails` for one trail, whitespace
included as in the source template literal. -/
def trailCard (trail : Trail) : String :=
  "\n      <article class=\"trail\">\n        <h3>" ++ trail.name ++
  "</h3>\n        <div class=\"trail-meta\">\n          " ++ locationTag trail ++
  "\n          " ++ distanceTag trail ++
  "\n          " ++ elevationTag trail ++
  "\n          " ++ difficultyTag trail ++
  "\n          " ++ providerTag trail ++
  "\n        </div>\n        <div class=\"trail-meta\">\n          " ++ dogPolicyTag trail ++
  "\n          " ++ surfaceTag trail ++
  "\n        </div>\n        <div>\n          <a href=\"" ++ trail.map_url ++
  "\" target=\"_blank\" rel=\"noreferrer\">View map</a>\n        </div>\n        " ++
  warningBlock trail ++ "\n      </article>"

/-- The serialization `trails.map(card).join("")`: the innerHTML written to the results
element. -/
def renderTrailsHTML (trails : List Trail) : String :=
  String.join (trails.map trailCard)

/-- The count label template:
`\x7b trails.length \x7d route\x7b trails.length === 1 ? "" : "s" \x7d`. -/
def countLabel (n : Nat) : String :=
  toString n ++ " route" ++ (if n = 1 then "" else "s")

/-- The two DOM writes `renderTrails` performs: the results innerHTML and
the result-count text. -/
structure RenderResult where
  resultsHTML : String
  countText : String
deriving DecidableEq, Repr

/-- The function `renderTrails` of `src/public/app.js` as a function from the trail
list to the two DOM writes. -/
def renderTrails (trails : List Trail) : RenderResult :=
  { resultsHTML := renderTrailsHTML trails, countText := countLabel trails.length }

/-- The part of an HTTP response that `fetchTrails` inspects: the `ok`
flag, the status text, and the JSON body (already decoded to trails; the
spec leaves malformed bodies to the upstream contract). -/
structure TrailsResponse where
  ok : Bool
  statusText : String
  body : List Trail
deriving DecidableEq, Repr

/-- The function `fetchTrails` after the response arrives: on `!response.ok` write the
warning div and the `"0 routes"` label without touching the body,
otherwise render the parsed trails. -/
def fetchTrailsRender (response : TrailsResponse) : RenderResult :=
  if response.ok = false then
    { resultsHTML := "<div class=\"warning\">Could not load live trails. " ++
        response.statusText ++ "</div>",
      countText := "0 routes" }
  else
    renderTrails response.body

/-- The DOM state `buildQuery` can see: the form entries plus the three
output surfaces. -/
structure Dom where
  form : List (String × String)
  resultsHTML : String
  countText : String
  providersHTML : String
deriving DecidableEq, Repr

/-- The function `buildQuery` as a state transformer over the DOM: it reads the form
via `new FormData(form)` and returns the query string; every local it
creates (`data`, `params`) dies with the call. -/
def buildQueryRun (dom : Dom) : String × Dom :=
  (buildQuery dom.form, dom)

/-- The four synthesized bounding-box parameter names. -/
def bboxNames : List String :=
  ["min_lat", "min_lon", "max_lat", "max_lon"]

/-- The entries of the form data that the entry loop actually sets:
non-`region` keys with non-empty values. -/
def loopEntries (entries : List (String × String)) : List (String × String) :=
  entries.filter (fun p => p.1 != "region" && p.2 != "")

/-! ### Helper lemmas about `setParam` and `processEntries` -/

theorem lookup_cons (k a1 a2 : String) (l : List (String × String)) :
    ((a1, a2) :: l).lookup k = if k = a1 then some a2 else l.lookup k := by
  by_cases h : k = a1
  · have hb : (k == a1) = true := by simpa using h
    simp [List.lookup, hb, h]
  · have hb : (k == a1) = false := by simpa using h
    simp [List.lookup, hb, h]

theorem setParam_cons (a1 a2 k v : String) (rest : List (String × String)) :
    setParam ((a1, a2) :: rest) k v =
      if a1 = k then (k, v) :: rest.filter (fun p => p.1 ≠ k)
      else (a1, a2) :: setParam rest k v := rfl

theorem processEntries_cons (k v : String) (rest ps : List (String × String)) :
    processEntries ((k, v) :: rest) ps =
      if k = "region" then processEntries rest ps
      else if v = "" then processEntries rest ps
      else processEntries rest (setParam ps k v) := rfl

theorem setBboxParams_nil (b : Bbox) :
    setBboxParams [] b =
      [("min_lat", b.min_lat), ("min_lon", b.min_lon),
       ("max_lat", b.max_lat), ("max_lon", b.max_lon)] := rfl

theorem lookup_filter_ne (l : List (String × String)) (k k' : String) (h : k' ≠ k) :
    (l.filter (fun p => p.1 ≠ k)).lookup k' = l.lookup k' := by
  induction l with
  | nil => rfl
  | cons a rest ih =>
    obtain ⟨a1, a2⟩ := a
    by_cases ha : a1 = k
    · have hcond : (decide ((a1, a2).1 ≠ k)) = false := by simp [ha]
      rw [List.filter_cons, hcond]
      simp only [Bool.false_eq_true, if_false]
      rw [ih, lookup_cons, if_neg (ha ▸ h)]
    · have hcond : (decide ((a1, a2).1 ≠ k)) = true := by simpa using ha
      rw [List.filter_cons, hcond]
      simp only [if_true]
      rw [lookup_cons, lookup_cons, ih]

theorem lookup_setParam_self (ps : List (String × String)) (k v : String) :
    (setParam ps k v).lookup k = some v := by
  induction ps with
  | nil => simp [setParam, lookup_cons]
  | cons a rest ih =>
    obtain ⟨a1, a2⟩ := a
    rw [setParam_cons]
    by_cases ha : a1 = k
    · rw [if_pos ha, lookup_cons, if_pos rfl]
    · rw [if_neg ha, lookup_cons, if_neg (fun hh => ha hh.symm), ih]

theorem lookup_setParam_ne (ps : List (String × String)) (k v k' : String) (h : k' ≠ k) :
    (setParam ps k v).lookup k' = ps.lookup k' := by
  induction ps with
  | nil => rw [show setParam [] k v = [(k, v)] from rfl, lookup_cons, if_neg h]
  | cons a rest ih =>
    obtain ⟨a1, a2⟩ := a
    rw [setParam_cons]
    by_cases ha : a1 = k
    · rw [if_pos ha, lookup_cons, if_neg h, lookup_filter_ne rest k k' h,
        lookup_cons, if_neg (ha ▸ h)]
    · rw [if_neg ha, lookup_cons, lookup_cons, ih]

theorem mem_setParam (p : String × String) (ps : List (String × String)) (k v : String)
    (h : p ∈ setParam ps k v) : p ∈ ps ∨ p = (k, v) := by
  induction ps with
  | nil => right; simpa [setParam] using h
  | cons a rest ih =>
    obtain ⟨a1, a2⟩ := a
    rw [setParam_cons] at h
    by_cases ha : a1 = k
    · rw [if_pos ha] at h
      rcases List.mem_cons.mp h with h1 | h2
      · right; exact h1
      · left; exact List.mem_cons_of_mem _ (List.mem_filter.mp h2).1
    · rw [if_neg ha] at h
      rcases List.mem_cons.mp h with h1 | h2
      · left; simp [h1]
      · rcases ih h2 with h3 | h3
        · left; exact List.mem_cons_of_mem _ h3
        · right; exact h3

theorem setParam_eq_append (ps : List (String × String)) (k v : String)
    (h : k ∉ ps.map Prod.fst) : setParam ps k v = ps ++ [(k, v)] := by
  induction ps with
  | nil => rfl
  | cons a rest ih =>
    obtain ⟨a1, a2⟩ := a
    simp only [List.map_cons, List.mem_cons] at h
    push_neg at h
    have hne : ¬ a1 = k := fun hh => h.1 hh.symm
    rw [setParam_cons, if_neg hne, ih h.2]
    rfl

theorem setParam_append_left (pre suf : List (String × String)) (k v : String)
    (h : k ∉ pre.map Prod.fst) : setParam (pre ++ suf) k v = pre ++ setParam suf k v := by
  induction pre with
  | nil => rfl
  | cons a rest ih =>
    obtain ⟨a1, a2⟩ := a
    simp only [List.map_cons, List.mem_cons] at h
    push_neg at h
    have hne : ¬ a1 = k := fun hh => h.1 hh.symm
    rw [List.cons_append, setParam_cons, if_neg hne, ih h.2]
    rfl

theorem processEntries_append_left (entries : List (String × String))
    (pre suf : List (String × String))
    (h : ∀ p ∈ entries, p.1 ≠ "region" → p.2 ≠ "" → p.1 ∉ pre.map Prod.fst) :
    processEntries entries (pre ++ suf) = pre ++ processEntries entries suf := by
  induction entries generalizing suf with
  | nil => rfl
  | cons a rest ih =>
    obtain ⟨k, v⟩ := a
    by_cases hk : k = "region"
    · rw [processEntries_cons, processEntries_cons, if_pos hk, if_pos hk]
      exact ih suf (fun p hp => h p (List.mem_cons_of_mem _ hp))
    · by_cases hv : v = ""
      · rw [processEntries_cons, processEntries_cons, if_neg hk, if_neg hk,
          if_pos hv, if_pos hv]
        exact ih suf (fun p hp => h p (List.mem_cons_of_mem _ hp))
      · rw [processEntries_cons, processEntries_cons, if_neg hk, if_neg hk,
          if_neg hv, if_neg hv,
          setParam_append_left pre suf k v (h (k, v) (List.mem_cons_self _ _) hk hv)]
        exact ih (setParam suf k v) (fun p hp => h p (List.mem_cons_of_mem _ hp))

theorem mem_processEntries (entries ps : List (String × String)) (p : String × String)
    (h : p ∈ processEntries entries ps) :
    p ∈ ps ∨ (p ∈ entries ∧ p.1 ≠ "region" ∧ p.2 ≠ "") := by
  induction entries generalizing ps with
  | nil => left; exact h
  | cons a rest ih =>
    obtain ⟨k, v⟩ := a
    rw [processEntries_cons] at h
    by_cases hk : k = "region"
    · rw [if_pos hk] at h
      rcases ih ps h with h1 | h2
      · left; exact h1
      · right; exact ⟨List.mem_cons_of_mem _ h2.1, h2.2⟩
    · rw [if_neg hk] at h
      by_cases hv : v = ""
      · rw [if_pos hv] at h
        rcases ih ps h with h1 | h2
        · left; exact h1
        · right; exact ⟨List.mem_cons_of_mem _ h2.1, h2.2⟩
      · rw [if_neg hv] at h
        rcases ih (setParam ps k v) h with h1 | h2
        · rcases mem_setParam p ps k v h1 with h3 | h3
          · left; exact h3
          · right
            refine ⟨h3 ▸ List.mem_cons_self _ _, ?_, ?_⟩
            · rw [h3]; exact hk
            · rw [h3]; exact hv
        · right; exact ⟨List.mem_cons_of_mem _ h2.1, h2.2⟩

theorem lookup_append (l1 l2 : List (String × String)) (k : String) :
    (l1 ++ l2).lookup k = (l1.lookup k).or (l2.lookup k) := by
  induction l1 with
  | nil => simp
  | cons a rest ih =>
    obtain ⟨a1, a2⟩ := a
    rw [List.cons_append, lookup_cons, lookup_cons]
    by_cases hk : k = a1
    · rw [if_pos hk, if_pos hk]; rfl
    · rw [if_neg hk, if_neg hk, ih]

theorem lookup_processEntries (entries ps : List (String × String)) (k : String) :
    (processEntries entries ps).lookup k =
      ((loopEntries entries).reverse.lookup k).or (ps.lookup k) := by
  induction entries generalizing ps with
  | nil => simp [loopEntries, processEntries]
  | cons a rest ih =>
    obtain ⟨a1, a2⟩ := a
    rw [processEntries_cons]
    by_cases hk : a1 = "region"
    · have hcond : ((a1, a2).1 != "region" && (a1, a2).2 != "") = false := by simp [hk]
      rw [if_pos hk, show loopEntries ((a1, a2) :: rest) = loopEntries rest by
        simp [loopEntries, List.filter_cons, hcond]]
      exact ih ps
    · rw [if_neg hk]
      by_cases hv : a2 = ""
      · have hcond : ((a1, a2).1 != "region" && (a1, a2).2 != "") = false := by simp [hv]
        rw [if_pos hv, show loopEntries ((a1, a2) :: rest) = loopEntries rest by
          simp [loopEntries, List.filter_cons, hcond]]
        exact ih ps
      · have hcond : ((a1, a2).1 != "region" && (a1, a2).2 != "") = true := by
          simp [hk, hv]
        rw [if_neg hv, ih (setParam ps a1 a2),
          show loopEntries ((a1, a2) :: rest) = (a1, a2) :: loopEntries rest by
            simp [loopEntries, List.filter_cons, hcond],
          List.reverse_cons, lookup_append]
        by_cases hka : k = a1
        · subst hka
          rw [lookup_setParam_self, lookup_cons, if_pos rfl, Option.or_assoc,
            show (some a2).or (List.lookup k ps) = some a2 from rfl]
        · rw [lookup_setParam_ne ps a1 a2 k hka, lookup_cons, if_neg hka,
            show (List.lookup k ([] : List (String × String))) = none from rfl,
            Option.or_none]

theorem lookup_eq_some_of_mem (l : List (String × String)) (k v : String)
    (hnd : (l.map Prod.fst).Nodup) (hm : (k, v) ∈ l) : l.lookup k = some v := by
  induction l with
  | nil => cases hm
  | cons a rest ih =>
    obtain ⟨a1, a2⟩ := a
    simp only [List.map_cons, List.nodup_cons] at hnd
    rw [lookup_cons]
    rcases List.mem_cons.mp hm with h1 | h2
    · obtain ⟨h1a, h1b⟩ := Prod.mk.injEq k v a1 a2 ▸ h1
      rw [if_pos h1a, h1b]
    · have hka : k ≠ a1 := by
        rintro rfl
        exact hnd.1 (List.mem_map.mpr ⟨(k, v), h2, rfl⟩)
      rw [if_neg hka, ih hnd.2 h2]

theorem lookup_eq_none_of_forall_ne (l : List (String × String)) (k : String)
    (h : ∀ p ∈ l, p.1 ≠ k) : l.lookup k = none := by
  induction l with
  | nil => rfl
  | cons a rest ih =>
    obtain ⟨a1, a2⟩ := a
    rw [lookup_cons, if_neg (Ne.symm (h (a1, a2) (List.mem_cons_self _ _)))]
    exact ih (fun p hp => h p (List.mem_cons_of_mem _ hp))

theorem processEntries_eq_append_filter (entries ps : List (String × String))
    (hnd : (entries.map Prod.fst).Nodup)
    (hdisj : ∀ p ∈ entries, p.1 ∉ ps.map Prod.fst)
    (hreg : ∀ p ∈ entries, p.1 ≠ "region") :
    processEntries entries ps = ps ++ entries.filter (fun p => p.2 != "") := by
  induction entries generalizing ps with
  | nil => simp [processEntries]
  | cons a rest ih =>
    obtain ⟨k, v⟩ := a
    simp only [List.map_cons, List.nodup_cons] at hnd
    have hk : k ≠ "region" := hreg (k, v) (List.mem_cons_self _ _)
    rw [processEntries_cons, if_neg hk]
    by_cases hv : v = ""
    · have hcond : ((k, v).2 != "") = false := by simp [hv]
      rw [if_pos hv, List.filter_cons, hcond]
      simp only [Bool.false_eq_true, if_false]
      exact ih ps hnd.2 (fun p hp => hdisj p (List.mem_cons_of_mem _ hp))
        (fun p hp => hreg p (List.mem_cons_of_mem _ hp))
    · have hcond : ((k, v).2 != "") = true := by simp [hv]
      rw [if_neg hv, List.filter_cons, hcond]
      simp only [if_true]
      rw [setParam_eq_append ps k v (hdisj (k, v) (List.mem_cons_self _ _))]
      rw [ih (ps ++ [(k, v)]) hnd.2 ?_ (fun p hp => hreg p (List.mem_cons_of_mem _ hp))]
      · simp
      · intro p hp
        simp only [List.map_append, List.mem_append, List.map_cons, List.map_nil,
          List.mem_singleton]
        rintro (h1 | h2)
        · exact hdisj p (List.mem_cons_of_mem _ hp) h1
        · exact hnd.1 (h2 ▸ List.mem_map.mpr ⟨p, hp, rfl⟩)

theorem mem_initialParams (data : List (String × String)) (p : String × String)
    (h : p ∈ initialParams data) : p.1 ∈ bboxNames := by
  unfold initialParams at h
  split at h
  · cases h
  · split at h
    · cases h
    · split at h
      · cases h
      · rw [setBboxParams_nil] at h
        rcases List.mem_cons.mp h with h1 | h
        · simp [h1, bboxNames]
        rcases List.mem_cons.mp h with h1 | h
        · simp [h1, bboxNames]
        rcases List.mem_cons.mp h with h1 | h
        · simp [h1, bboxNames]
        rcases List.mem_cons.mp h with h1 | h
        · simp [h1, bboxNames]
        · cases h

theorem regionBboxesGet_of_table (r : String) (b : Bbox) (hb : regionBboxes r = some b) :
    regionBboxesGet r = some b := by
  unfold regionBboxesGet
  rw [hb]

theorem regionBboxesGet_of_unknown (r : String) (hb : regionBboxes r = none)
    (hproto : r ∉ objectProtoMembers) : regionBboxesGet r = none := by
  unfold regionBboxesGet
  rw [hb]
  exact if_neg hproto

theorem initialParams_of_region (data : List (String × String)) (r : String) (b : Bbox)
    (hr : data.lookup "region" = some r) (hne : r ≠ "") (hb : regionBboxes r = some b) :
    initialParams data =
      [("min_lat", b.min_lat), ("min_lon", b.min_lon),
       ("max_lat", b.max_lat), ("max_lon", b.max_lon)] := by
  unfold initialParams
  simp only [hr]
  rw [if_neg hne]
  simp only [regionBboxesGet_of_table r b hb, setBboxParams_nil]

theorem initialParams_of_unknown_region (data : List (String × String)) (r : String)
    (hr : data.lookup "region" = some r) (hget : regionBboxesGet r = none) :
    initialParams data = [] := by
  unfold initialParams
  simp only [hr, hget]
  split <;> rfl

theorem buildQueryParams_region_decomp (data : List (String × String)) (r : String) (b : Bbox)
    (hr : data.lookup "region" = some r) (hne : r ≠ "") (hb : regionBboxes r = some b)
    (hbbox : ∀ p ∈ data, p.2 ≠ "" → p.1 ∉ bboxNames) :
    buildQueryParams data =
      [("min_lat", b.min_lat), ("min_lon", b.min_lon),
       ("max_lat", b.max_lat), ("max_lon", b.max_lon)] ++ processEntries data [] := by
  unfold buildQueryParams
  rw [initialParams_of_region data r b hr hne hb]
  have hpre : ∀ p ∈ data, p.1 ≠ "region" → p.2 ≠ "" →
      p.1 ∉ ([("min_lat", b.min_lat), ("min_lon", b.min_lon),
        ("max_lat", b.max_lat), ("max_lon", b.max_lon)] :
          List (String × String)).map Prod.fst := by
    intro p hp _ hv
    have hnb := hbbox p hp hv
    simpa [bboxNames] using hnb
  have := processEntries_append_left data
    [("min_lat", b.min_lat), ("min_lon", b.min_lon),
     ("max_lat", b.max_lat), ("max_lon", b.max_lon)] [] hpre
  simpa using this

theorem toString_digit_length (d : ℕ) (hd : d < 10) : (toString d).length = 1 := by
  interval_cases d <;> rfl

theorem region_never_in_buildQueryParams (data : List (String × String)) (v : String) :
    ("region", v) ∉ buildQueryParams data := by
  intro hv
  unfold buildQueryParams at hv
  rcases mem_processEntries data (initialParams data) _ hv with h1 | h2
  · have h : ("region" : String) ∈ bboxNames := mem_initialParams data _ h1
    exact absurd h (by decide)
  · exact h2.2.1 rfl

/-! ### Claim theorems -/

/-- C1, counterexample to the claim as stated: the table entry for
`wellington` has `min_lat = "-41.35"`, yet on the field mapping
`[("region", "wellington"), ("min_lat", "99")]` the query builder outputs
`min_lat = "99"`, because the generic entry loop runs after the region
expansion and overwrites the region-derived bound. -/
theorem buildQuery_region_table_counterexample :
    regionBboxes "wellington" =
      some { min_lat := "-41.35", min_lon := "174.72",
             max_lat := "-41.24", max_lon := "174.82" } ∧
    (buildQueryParams [("region", "wellington"), ("min_lat", "99")]).lookup "min_lat" =
      some "99" ∧
    ("99" : String) ≠ "-41.35" := by decide

/-- C1 (amended): for every field mapping whose `region` value is
non-empty and matches a `regionBboxes` entry, and which has no non-empty
field itself named `min_lat`/`min_lon`/`max_lat`/`max_lon`, the query
builder output contains `min_lat`, `min_lon`, `max_lat`, `max_lon` exactly
once each, carrying exactly the table values for that entry; moreover a
`region` parameter never appears in the output of the query builder on
any input whatsoever (the last conjunct is universally quantified over
all field mappings, independent of this theorem's hypotheses). -/
theorem buildQuery_region_expansion (data : List (String × String)) (r : String) (b : Bbox)
    (hr : data.lookup "region" = some r) (hne : r ≠ "")
    (hb : regionBboxes r = some b)
    (hbbox : ∀ p ∈ data, p.2 ≠ "" → p.1 ∉ bboxNames) :
    ((buildQueryParams data).lookup "min_lat" = some b.min_lat ∧
     (buildQueryParams data).lookup "min_lon" = some b.min_lon ∧
     (buildQueryParams data).lookup "max_lat" = some b.max_lat ∧
     (buildQueryParams data).lookup "max_lon" = some b.max_lon) ∧
    (∀ k, k ∈ bboxNames →
      (buildQueryParams data).countP (fun p => p.1 == k) = 1) ∧
    (∀ (d : List (String × String)) (v : String), ("region", v) ∉ buildQueryParams d) := by
  have hdec := buildQueryParams_region_decomp data r b hr hne hb hbbox
  have hrest : ∀ p ∈ processEntries data [], p.1 ∉ bboxNames ∧ p.1 ≠ "region" := by
    intro p hp
    rcases mem_processEntries data [] p hp with h1 | h2
    · cases h1
    · exact ⟨hbbox p h2.1 h2.2.2, h2.2.1⟩
  refine ⟨⟨?_, ?_, ?_, ?_⟩, ?_, ?_⟩
  · rw [hdec, lookup_append]; rfl
  · rw [hdec, lookup_append]; rfl
  · rw [hdec, lookup_append]; rfl
  · rw [hdec, lookup_append]; rfl
  · intro k hk
    rw [hdec, List.countP_append]
    have hz : (processEntries data []).countP (fun p => p.1 == k) = 0 := by
      rw [List.countP_eq_zero]
      intro p hp hpk
      have hpk' : p.1 = k := by simpa using hpk
      exact (hrest p hp).1 (hpk' ▸ hk)
    rw [hz]
    simp only [bboxNames, List.mem_cons, List.not_mem_nil, or_false] at hk
    rcases hk with rfl | rfl | rfl | rfl <;> rfl
  · intro d v
    exact region_never_in_buildQueryParams d v

/-- C1 witness: on `[("region", "wellington"), ("effort", "steady")]` the
amended theorem yields `min_lat = "-41.35"` and a unique `min_lat` entry,
and its universal last conjunct excludes a `region` parameter both there
and on `[("region", "wellington"), ("min_lat", "99")]`, an input outside
the other hypotheses. -/
theorem buildQuery_region_expansion_witness :
    (buildQueryParams [("region", "wellington"), ("effort", "steady")]).lookup "min_lat" =
      some "-41.35" ∧
    (buildQueryParams [("region", "wellington"), ("effort", "steady")]).countP
      (fun p => p.1 == "min_lat") = 1 ∧
    ("region", "wellington") ∉ buildQueryParams [("region", "wellington"), ("effort", "steady")] ∧
    ("region", "wellington") ∉ buildQueryParams [("region", "wellington"), ("min_lat", "99")] := by
  have h := buildQuery_region_expansion [("region", "wellington"), ("effort", "steady")]
    "wellington"
    { min_lat := "-41.35", min_lon := "174.72", max_lat := "-41.24", max_lon := "174.82" }
    (by decide) (by decide) (by decide) (by decide)
  exact ⟨h.1.1, h.2.1 "min_lat" (by decide),
    h.2.2 [("region", "wellington"), ("effort", "steady")] "wellington",
    h.2.2 [("region", "wellington"), ("min_lat", "99")] "wellington"⟩

/-- C2, counterexample to the claim as stated, on two independent inputs:
`atlantis` is not a table key, yet on
`[("region", "atlantis"), ("min_lat", "1")]` the output contains a
`min_lat` parameter, contributed by the identically named input field;
and `constructor` is not a table key either, yet on
`[("region", "constructor")]` the inherited `Object.prototype` member
makes the source guard truthy and the output contains
`min_lat = "undefined"` (and likewise the other three bounds). -/
theorem buildQuery_unknown_region_counterexample :
    regionBboxes "atlantis" = none ∧
    ("min_lat", "1") ∈ buildQueryParams [("region", "atlantis"), ("min_lat", "1")] ∧
    regionBboxes "constructor" = none ∧
    ("min_lat", "undefined") ∈ buildQueryParams [("region", "constructor")] := by
  decide

/-- C2 (amended): for every field mapping whose `region` value is
non-empty, matches no `regionBboxes` entry, and is not the name of an
inherited `Object.prototype` member (so the source guard
`regionBboxes[region]` is falsy), and which has no non-empty field itself
named `min_lat`/`min_lon`/`max_lat`/`max_lon`, the output contains
neither a `region` parameter nor any bounding-box parameter; the builder
is total, so no error is raised. -/
theorem buildQuery_unknown_region (data : List (String × String)) (r : String)
    (hr : data.lookup "region" = some r) (_hne : r ≠ "")
    (hb : regionBboxes r = none) (hproto : r ∉ objectProtoMembers)
    (hbbox : ∀ p ∈ data, p.2 ≠ "" → p.1 ∉ bboxNames) :
    ∀ k v, (k = "region" ∨ k ∈ bboxNames) → (k, v) ∉ buildQueryParams data := by
  intro k v hk hmem
  unfold buildQueryParams at hmem
  rw [initialParams_of_unknown_region data r hr
    (regionBboxesGet_of_unknown r hb hproto)] at hmem
  rcases mem_processEntries data [] (k, v) hmem with h1 | h2
  · cases h1
  · rcases hk with rfl | hk
    · exact h2.2.1 rfl
    · exact hbbox _ h2.1 h2.2.2 hk

/-- C2 witness: on `[("region", "atlantis"), ("effort", "steady")]` the
amended theorem excludes the `region` key and the `min_lat` key from the
output. -/
theorem buildQuery_unknown_region_witness :
    ("region", "atlantis") ∉
      buildQueryParams [("region", "atlantis"), ("effort", "steady")] ∧
    ("min_lat", "-41.35") ∉
      buildQueryParams [("region", "atlantis"), ("effort", "steady")] := by
  constructor
  · exact buildQuery_unknown_region [("region", "atlantis"), ("effort", "steady")]
      "atlantis" (by decide) (by decide) (by decide) (by decide) (by decide)
      "region" "atlantis" (Or.inl rfl)
  · exact buildQuery_unknown_region [("region", "atlantis"), ("effort", "steady")]
      "atlantis" (by decide) (by decide) (by decide) (by decide) (by decide)
      "min_lat" "-41.35" (Or.inr (by decide))

/-- C3: for every field mapping (distinct field names) without a `region`
key, the query builder output is exactly the non-empty fields in order:
the parameter-name set is the set of non-empty field names, each parameter
appears exactly once, and it carries that field value. -/
theorem buildQuery_no_region (data : List (String × String))
    (hnd : (data.map Prod.fst).Nodup)
    (hreg : ∀ p ∈ data, p.1 ≠ "region") :
    buildQueryParams data = data.filter (fun p => p.2 != "") ∧
    (∀ k v, (k, v) ∈ buildQueryParams data ↔ ((k, v) ∈ data ∧ v ≠ "")) ∧
    ((buildQueryParams data).map Prod.fst).Nodup := by
  have h0 : data.lookup "region" = none := lookup_eq_none_of_forall_ne data "region" hreg
  have hinit : initialParams data = [] := by
    unfold initialParams
    rw [h0]
  have heq : buildQueryParams data = data.filter (fun p => p.2 != "") := by
    unfold buildQueryParams
    rw [hinit, processEntries_eq_append_filter data [] hnd (by simp) hreg]
    simp
  refine ⟨heq, ?_, ?_⟩
  · intro k v
    rw [heq, List.mem_filter]
    constructor
    · rintro ⟨h1, h2⟩
      exact ⟨h1, by simpa using h2⟩
    · rintro ⟨h1, h2⟩
      exact ⟨h1, by simpa using h2⟩
  · rw [heq]
    exact List.Nodup.sublist (List.Sublist.map Prod.fst (List.filter_sublist data)) hnd

/-- C3 witness: on `[("effort", "steady"), ("length", "")]` the output is
exactly the single non-empty field. -/
theorem buildQuery_no_region_witness :
    buildQueryParams [("effort", "steady"), ("length", "")] = [("effort", "steady")] :=
  ((buildQuery_no_region [("effort", "steady"), ("length", "")]
    (by decide) (by decide)).1).trans (by decide)

/-- C4: the card template renders no warning block when `dog_policy` is
exactly `"allowed"`; for any other value it renders one whose text is
`dog_notes` verbatim when present, and the fallback
`"Dog access has restrictions."` otherwise (`warningBlock` is the
conditional fragment of `trailCard`). -/
theorem renderTrails_dog_warning (t : Trail) :
    (t.dog_policy = "allowed" → warningBlock t = "") ∧
    (∀ notes, t.dog_policy ≠ "allowed" → t.dog_notes = some notes →
      warningBlock t = "<div class=\"warning\">" ++ notes ++ "</div>") ∧
    (t.dog_policy ≠ "allowed" → t.dog_notes = none →
      warningBlock t = "<div class=\"warning\">Dog access has restrictions.</div>") := by
  refine ⟨?_, ?_, ?_⟩
  · intro h
    rw [warningBlock, if_neg (fun hh => hh h)]
  · intro notes h hn
    rw [warningBlock, if_pos h, hn]
    rfl
  · intro h hn
    rw [warningBlock, if_pos h, hn]
    rfl

/-- C4 witness: a restricted trail with notes renders the notes verbatim;
an allowed trail renders no warning block. -/
theorem renderTrails_dog_warning_witness :
    warningBlock
      { name := "Summit Track", location := "Queenstown", distance_km := 5,
        elevation_m := 410, difficulty := "hard", provider := "DOC",
        dog_policy := "no_dogs", dog_notes := some "No dogs past the summit gate.",
        surface := "rock", map_url := "https://example.org/summit" } =
      "<div class=\"warning\">No dogs past the summit gate.</div>" ∧
    warningBlock
      { name := "River Loop", location := "Wellington", distance_km := 3,
        elevation_m := 40, difficulty := "easy", provider := "DOC",
        dog_policy := "allowed", dog_notes := none,
        surface := "gravel", map_url := "https://example.org/river" } = "" :=
  ⟨(renderTrails_dog_warning _).2.1 "No dogs past the summit gate." (by decide) rfl,
   (renderTrails_dog_warning _).1 rfl⟩

/-- C5: the renderer count label is `"1 route"` for a one-element trail
list and `"N routes"` (the length followed by `" routes"`) for every other
length, zero included. -/
theorem renderTrails_count_label (trails : List Trail) :
    (renderTrails trails).countText =
      if trails.length = 1 then "1 route"
      else toString trails.length ++ " routes" := by
  show countLabel trails.length = _
  by_cases h : trails.length = 1
  · rw [if_pos h, countLabel, if_pos h, h]
    rfl
  · rw [if_neg h, countLabel, if_neg h, String.append_assoc]
    rfl

/-- C6: rendering the empty trail list is total and yields empty results
content and the count label `"0 routes"`. -/
theorem renderTrails_empty :
    renderTrails ([] : List Trail) = { resultsHTML := "", countText := "0 routes" } := rfl

/-- C7: `toFixed(1)` always produces an optional sign, an integer part,
and exactly one digit after the decimal point; in particular a distance of
`7.96` renders as the tag `"8.0 km"`, and a difficulty of
`"moderate_effort"` renders as the tag `"moderate effort"`. -/
theorem renderTrails_formatting :
    (∀ q : ℚ, ∃ (s : String) (m d : ℕ), (s = "" ∨ s = "-") ∧ d < 10 ∧
      (toString d).length = 1 ∧
      toFixed1 q = s ++ (toString m ++ "." ++ toString d)) ∧
    (∀ t : Trail, t.distance_km = 796 / 100 →
      distanceTag t = "<span class=\"tag\">8.0 km</span>") ∧
    (∀ t : Trail, t.difficulty = "moderate_effort" →
      difficultyTag t = "<span class=\"tag\">moderate effort</span>") := by
  refine ⟨?_, ?_, ?_⟩
  · intro q
    by_cases h : q < 0
    · refine ⟨"-", (⌊-q * 10 + 1 / 2⌋).toNat / 10, (⌊-q * 10 + 1 / 2⌋).toNat % 10,
        Or.inr rfl, Nat.mod_lt _ (by norm_num),
        toString_digit_length _ (Nat.mod_lt _ (by norm_num)), ?_⟩
      rw [toFixed1, if_pos h]
      rfl
    · refine ⟨"", (⌊q * 10 + 1 / 2⌋).toNat / 10, (⌊q * 10 + 1 / 2⌋).toNat % 10,
        Or.inl rfl, Nat.mod_lt _ (by norm_num),
        toString_digit_length _ (Nat.mod_lt _ (by norm_num)), ?_⟩
      rw [toFixed1, if_neg h]
      rfl
  · intro t ht
    rw [distanceTag, ht,
      show toFixed1 ((796 : ℚ) / 100) = "8.0" from by
        rw [toFixed1, if_neg (by norm_num : ¬ ((796 : ℚ) / 100 < 0))]
        simp only [toFixed1Nonneg]
        rw [show ⌊((796 : ℚ) / 100 * 10 + 1 / 2)⌋ = 80 by norm_num [Int.floor_eq_iff]]
        rfl]
    rfl
  · intro t ht
    rw [difficultyTag, ht]
    rfl

/-- C7 witness: the two concrete renderings of the claim, on a trail with
distance `7.96` and difficulty `"moderate_effort"`. -/
theorem renderTrails_formatting_witness :
    distanceTag
      { name := "Skyline", location := "Wellington", distance_km := 796 / 100,
        elevation_m := 320, difficulty := "moderate_effort", provider := "DOC",
        dog_policy := "on_leash", dog_notes := some "On leash at all times.",
        surface := "gravel", map_url := "https://example.org/skyline" } =
      "<span class=\"tag\">8.0 km</span>" ∧
    difficultyTag
      { name := "Skyline", location := "Wellington", distance_km := 796 / 100,
        elevation_m := 320, difficulty := "moderate_effort", provider := "DOC",
        dog_policy := "on_leash", dog_notes := some "On leash at all times.",
        surface := "gravel", map_url := "https://example.org/skyline" } =
      "<span class=\"tag\">moderate effort</span>" :=
  ⟨renderTrails_formatting.2.1 _ rfl, renderTrails_formatting.2.2 _ rfl⟩

/-- C8: on a non-ok trails response the orchestration writes the warning
`"Could not load live trails. "` followed by the status text, sets the
count label to `"0 routes"`, renders no trail cards, and its output does
not depend on the response body (it is never parsed). -/
theorem fetchTrails_error_path :
    (∀ resp : TrailsResponse, resp.ok = false →
      fetchTrailsRender resp =
        { resultsHTML := "<div class=\"warning\">Could not load live trails. " ++
            resp.statusText ++ "</div>",
          countText := "0 routes" }) ∧
    (∀ r1 r2 : TrailsResponse, r1.ok = false → r2.ok = false →
      r1.statusText = r2.statusText → fetchTrailsRender r1 = fetchTrailsRender r2) := by
  constructor
  · intro resp h
    rw [fetchTrailsRender, if_pos h]
  · intro r1 r2 h1 h2 hs
    rw [fetchTrailsRender, if_pos h1, fetchTrailsRender, if_pos h2, hs]

/-- C8 witness: a concrete 503-style response produces the warning and the
zero count, and two non-ok responses differing only in body render
identically. -/
theorem fetchTrails_error_path_witness :
    fetchTrailsRender { ok := false, statusText := "Service Unavailable", body := [] } =
      { resultsHTML :=
          "<div class=\"warning\">Could not load live trails. Service Unavailable</div>",
        countText := "0 routes" } ∧
    fetchTrailsRender { ok := false, statusText := "Service Unavailable", body := [] } =
      fetchTrailsRender
        { ok := false, statusText := "Service Unavailable",
          body := [{ name := "x", location := "y", distance_km := 1, elevation_m := 1,
                     difficulty := "easy", provider := "p", dog_policy := "allowed",
                     dog_notes := none, surface := "s", map_url := "u" }] } :=
  ⟨fetchTrails_error_path.1 { ok := false, statusText := "Service Unavailable", body := [] } rfl,
   fetchTrails_error_path.2 _ _ rfl rfl rfl⟩

/-- C9: `buildQuery` is pure and deterministic: run on a DOM state it
returns that state unchanged, and its result depends only on the form
entries (two states agreeing on the form yield the same query string). -/
theorem buildQuery_pure :
    (∀ dom : Dom, (buildQueryRun dom).2 = dom) ∧
    (∀ d1 d2 : Dom, d1.form = d2.form → (buildQueryRun d1).1 = (buildQueryRun d2).1) := by
  constructor
  · intro dom
    rfl
  · intro d1 d2 h
    show buildQuery d1.form = buildQuery d2.form
    rw [h]

/-- C9 witness: two DOM states with the same form but different display
surfaces produce the same query string, and the state is returned
unchanged. -/
theorem buildQuery_pure_witness :
    (buildQueryRun { form := [("effort", "steady")], resultsHTML := "", countText := "", providersHTML := "" }).2 =
      { form := [("effort", "steady")], resultsHTML := "", countText := "", providersHTML := "" } ∧
    (buildQueryRun { form := [("effort", "steady")], resultsHTML := "", countText := "", providersHTML := "" }).1 =
      (buildQueryRun { form := [("effort", "steady")], resultsHTML := "a", countText := "b", providersHTML := "c" }).1 :=
  ⟨buildQuery_pure.1 _, buildQuery_pure.2 _ _ rfl⟩

/-- C10: because the entry loop runs after the region expansion, (a) a
non-empty input field literally named `min_lat`/`min_lon`/`max_lat`/
`max_lon` overwrites the region-derived bound — the output carries the
field value; and (b) when no such field is present, the four bbox
parameters occupy the first four positions of the output, before all other
parameters. -/
theorem buildQuery_overwrite_and_order :
    (∀ (data : List (String × String)) (r : String) (b : Bbox) (k v : String),
      (data.map Prod.fst).Nodup → data.lookup "region" = some r → r ≠ "" →
      regionBboxes r = some b → k ∈ bboxNames → (k, v) ∈ data → v ≠ "" →
      (buildQueryParams data).lookup k = some v) ∧
    (∀ (data : List (String × String)) (r : String) (b : Bbox),
      data.lookup "region" = some r → r ≠ "" → regionBboxes r = some b →
      (∀ p ∈ data, p.2 ≠ "" → p.1 ∉ bboxNames) →
      buildQueryParams data =
        [("min_lat", b.min_lat), ("min_lon", b.min_lon),
         ("max_lat", b.max_lat), ("max_lon", b.max_lon)] ++ processEntries data [] ∧
      ∀ p ∈ processEntries data [], p.1 ∉ bboxNames) := by
  constructor
  · intro data r b k v hnd hr hne hb hkmem hmem hv
    have hkreg : k ≠ "region" := by
      simp only [bboxNames, List.mem_cons, List.not_mem_nil, or_false] at hkmem
      rcases hkmem with rfl | rfl | rfl | rfl <;> decide
    have hmem' : (k, v) ∈ loopEntries data :=
      List.mem_filter.mpr ⟨hmem, by simp [hkreg, hv]⟩
    have hnd2 : ((loopEntries data).map Prod.fst).Nodup :=
      List.Nodup.sublist (List.Sublist.map Prod.fst (List.filter_sublist data)) hnd
    have hnd3 : ((loopEntries data).reverse.map Prod.fst).Nodup := by
      rw [List.map_reverse]
      exact List.nodup_reverse.mpr hnd2
    unfold buildQueryParams
    rw [lookup_processEntries,
      lookup_eq_some_of_mem _ k v hnd3 (List.mem_reverse.mpr hmem')]
    rfl
  · intro data r b hr hne hb hbbox
    refine ⟨buildQueryParams_region_decomp data r b hr hne hb hbbox, ?_⟩
    intro p hp
    rcases mem_processEntries data [] p hp with h1 | h2
    · cases h1
    · exact hbbox p h2.1 h2.2.2

/-- C10 witness: an explicit `min_lat = "99"` field overwrites the
wellington bound, and without such a field the four bbox parameters come
first, followed by the remaining field. -/
theorem buildQuery_overwrite_and_order_witness :
    (buildQueryParams [("region", "wellington"), ("min_lat", "99")]).lookup "min_lat" =
      some "99" ∧
    buildQueryParams [("region", "wellington"), ("effort", "steady")] =
      [("min_lat", "-41.35"), ("min_lon", "174.72"), ("max_lat", "-41.24"),
       ("max_lon", "174.82"), ("effort", "steady")] := by
  constructor
  · exact buildQuery_overwrite_and_order.1 [("region", "wellington"), ("min_lat", "99")]
      "wellington"
      { min_lat := "-41.35", min_lon := "174.72", max_lat := "-41.24", max_lon := "174.82" }
      "min_lat" "99" (by decide) (by decide) (by decide) (by decide) (by decide)
      (by decide) (by decide)
  · exact ((buildQuery_overwrite_and_order.2 [("region", "wellington"), ("effort", "steady")]
      "wellington"
      { min_lat := "-41.35", min_lon := "174.72", max_lat := "-41.24", max_lon := "174.82" }
      (by decide) (by decide) (by decide) (by decide)).1).trans (by decide)

end Dogtrails
